import Mathlib

/-!
Verification of the keyword-tracker script (`main-slack.py`).

The script polls a tweet-search API, sorts the results by impression count,
filters them (spam tokens, the literal "ransomware", follower threshold,
keyword match), formats each survivor as a Slack Block Kit message and posts
a header plus one message per accepted tweet to a webhook.

Texts are modelled as `List Char` (Python `str`).  Python's `in` operator on
strings is contiguous-substring containment; `str.lower` is modelled with
`Char.toLower` (the texts in play are ASCII, where the two agree).
-/

/-- Shorthand: the character list of a string literal. -/
def str (s : String) : List Char := s.toList

/-- Python `s.lower()` (ASCII-faithful). -/
def lower (cs : List Char) : List Char := cs.map Char.toLower

/-- Python `needle in hay` for strings: contiguous substring containment. -/
def pyIn (needle : List Char) : List Char → Bool
  | [] => needle.isEmpty
  | c :: t => needle.isPrefixOf (c :: t) || pyIn needle t

/-- Decimal rendering of a natural number, as Python `str(n)` / f-string interpolation. -/
def natStr (n : Nat) : List Char := (toString n).toList

/-- Engagement counters of a tweet (`tweet.public_metrics`); each key may be absent,
`dict.get(k, 0)` defaults it to 0. -/
structure TweetMetrics where
  like_count : Option Nat
  retweet_count : Option Nat
  reply_count : Option Nat
  impression_count : Option Nat
deriving DecidableEq

/-- A search-result tweet.  `noteFullText` models
`getattr(tweet, "note_tweet", {}).get("full_text", ...)`: the extended text when present. -/
structure Tweet where
  id : Nat
  author_id : Nat
  text : List Char
  noteFullText : Option (List Char)
  public_metrics : TweetMetrics
deriving DecidableEq

/-- An expanded author record.  `followers_count` models
`user.public_metrics.get("followers_count", 0)`: the key may be absent. -/
structure TwitterUser where
  id : Nat
  username : List Char
  followers_count : Option Nat
deriving DecidableEq

/-- The three keyword lists loaded from `keywords.json`
(`PRIMARY_KEYWORDS`, `PRODUCT`, `SERVICE`). -/
structure KeywordConfig where
  primary : List (List Char)
  product : List (List Char)
  service : List (List Char)
deriving DecidableEq

/-- `tweet_text = getattr(tweet, "note_tweet", {}).get("full_text", tweet.text)`. -/
def tweetText (t : Tweet) : List Char := t.noteFullText.getD t.text

/-- `user_dict = {user.id: user for user in tweets.includes["users"]}` followed by
`user_dict.get(aid)`: a later duplicate id overwrites an earlier one. -/
def userDictGet (users : List TwitterUser) (aid : Nat) : Option TwitterUser :=
  users.foldl (fun acc u => if u.id == aid then some u else acc) none

/-- Line 127: `any(token.lower() in tweet_text.lower() for token in SERVICE)`. -/
def spamHit (cfg : KeywordConfig) (t : Tweet) : Bool :=
  cfg.service.any (fun token => pyIn (lower token) (lower (tweetText t)))

/-- Line 132: `"ransomware" in tweet_text.lower()`. -/
def ransomwareHit (t : Tweet) : Bool :=
  pyIn (str "ransomware") (lower (tweetText t))

/-- Line 137: `followers = user.public_metrics.get("followers_count", 0)`. -/
def followersOf (u : TwitterUser) : Nat := u.followers_count.getD 0

/-- Line 142: `any(kw in tweet_text for kw in PRIMARY_KEYWORDS + PRODUCT)`
(case-sensitive: the text and keywords are not lowered here). -/
def keywordHit (cfg : KeywordConfig) (t : Tweet) : Bool :=
  (cfg.primary ++ cfg.product).any (fun kw => pyIn kw (tweetText t))

/-- Outcome of the per-tweet body of the loop at lines 120-145, in source order:
unresolved author (silent skip), spam token, "ransomware", low followers,
accepted, or no keyword match (silent skip). -/
inductive FilterDecision
  | noUser
  | spamToken
  | ransomware
  | lowFollowers (followers : Nat)
  | accepted
  | noKeywordMatch
deriving DecidableEq

/-- The filter chain applied to one tweet (lines 121-142), with the checks in
source order: author lookup, spam tokens, "ransomware", follower threshold,
keyword match. -/
def filterDecision (cfg : KeywordConfig) (users : Nat → Option TwitterUser)
    (t : Tweet) : FilterDecision :=
  match users t.author_id with
  | none => .noUser
  | some u =>
    if spamHit cfg t then .spamToken
    else if ransomwareHit t then .ransomware
    else if followersOf u < 20 then .lowFollowers (followersOf u)
    else if keywordHit cfg t then .accepted
    else .noKeywordMatch

/-- `tweet.public_metrics.get("impression_count", 0)` (line 106): the sort key. -/
def impressions (t : Tweet) : Nat := t.public_metrics.impression_count.getD 0

/-- Descending order on impression counts: `a` may come before `b`.  Python
`sorted(..., key=imp, reverse=True)` is the stable sort for this order. -/
def impGE (a b : Tweet) : Prop := impressions b ≤ impressions a

instance : DecidableRel impGE :=
  fun a b => inferInstanceAs (Decidable (impressions b ≤ impressions a))

instance : IsTotal Tweet impGE :=
  ⟨fun a b => Nat.le_total (impressions b) (impressions a)⟩

instance : IsTrans Tweet impGE :=
  ⟨fun _ _ _ h1 h2 => Nat.le_trans h2 h1⟩

/-- Lines 104-108 without the cap: `sorted(tweets.data, key=..., reverse=True)`.
Python's sort is stable; with the non-strict descending relation `impGE`,
insertion sort is exactly the stable descending sort (sortedness and
stability are proved below). -/
def sortByImpressionsDesc (ts : List Tweet) : List Tweet := ts.insertionSort impGE

/-- Lines 104-108: sort descending by impressions, then `[:100]`. -/
def rankedTweets (data : List Tweet) : List Tweet := (sortByImpressionsDesc data).take 100

/-- Length of the scheme prefix matched by `https?://` at the head of `cs`
(8 for "https://", 7 for "http://", 0 when neither matches). -/
def schemeLen (cs : List Char) : Nat :=
  if (str "https://").isPrefixOf cs then 8
  else if (str "http://").isPrefixOf cs then 7
  else 0

/-- Length of the match of the regex `https?://\S+` anchored at the head of
`cs` (0 when there is no match): the scheme plus the maximal run of
non-whitespace characters, which must be non-empty. -/
def urlMatchLen (cs : List Char) : Nat :=
  if schemeLen cs = 0 then 0
  else
    let run := ((cs.drop (schemeLen cs)).takeWhile (fun c => !c.isWhitespace)).length
    if run = 0 then 0 else schemeLen cs + run

/-- Left-to-right scan of `re.sub(r'https?://\S+', '', text)`: at each
position, either remove the anchored match or keep the character.  The fuel
argument (instantiated with the list length, which suffices: each step
consumes at least one character) keeps the recursion structural. -/
def stripLinksFuel : Nat → List Char → List Char
  | 0, _ => []
  | _ + 1, [] => []
  | fuel + 1, c :: cs =>
    if urlMatchLen (c :: cs) = 0 then c :: stripLinksFuel fuel cs
    else stripLinksFuel fuel ((c :: cs).drop (urlMatchLen (c :: cs)))

/-- Line 45-46: `strip_links(text) = re.sub(r'https?://\S+', '', text)`. -/
def strip_links (cs : List Char) : List Char := stripLinksFuel cs.length cs

/-- Python `str.strip()`: drop leading and trailing whitespace. -/
def pyStrip (cs : List Char) : List Char :=
  ((cs.dropWhile Char.isWhitespace).reverse.dropWhile Char.isWhitespace).reverse

/-- Line 51: `clean_text = strip_links(tweet_text).strip()`. -/
def cleanTextOf (t : Tweet) : List Char := pyStrip (strip_links (tweetText t))

/-- Line 124: `f"https://twitter.com/{user.username}/status/{tweet.id}"`. -/
def tweet_url (t : Tweet) (u : TwitterUser) : List Char :=
  str "https://twitter.com/" ++ u.username ++ str "/status/" ++ natStr t.id

/-- A Slack Block Kit block, reduced to its observable text content:
a divider, a "section" block, or a "context" block. -/
inductive Block
  | divider
  | sec (text : List Char)
  | context (text : List Char)
deriving DecidableEq

/-- Lines 49-76: the four-block item message.  Line 60 indexes
`user.public_metrics['followers_count']` directly; the run only reaches the
formatter for accepted tweets, where the key is present (follower filter
passed with a value of at least 20), so the 0 default never shows. -/
def format_tweet_blockkit (t : Tweet) (u : TwitterUser) : List Block :=
  [ .divider,
    .sec (str "*New tweet by @" ++ u.username ++ str "* _(Followers: "
      ++ natStr (followersOf u) ++ str ")_\n\n" ++ cleanTextOf t),
    .context (str "👍 " ++ natStr (t.public_metrics.like_count.getD 0)
      ++ str "   🔁 " ++ natStr (t.public_metrics.retweet_count.getD 0)
      ++ str "   💬 " ++ natStr (t.public_metrics.reply_count.getD 0)
      ++ str "   👀 " ++ natStr (t.public_metrics.impression_count.getD 0)),
    .sec (str "<https://twitter.com/" ++ u.username ++ str "/status/" ++ natStr t.id
      ++ str "|🔗 View on Twitter>") ]

/-- Lines 111-117: the run header (timestamped title and a divider). -/
def header_block (timestamp : List Char) : List Block :=
  [ .sec (str "*🕓 Keyword Tracker - Tweets from: " ++ timestamp ++ str "*"),
    .divider ]

/-- The JSON body posted to the webhook: the `blocks` array plus the
`thread_ts` key, present only when a truthy thread id was supplied. -/
structure SlackPayload where
  blocks : List Block
  thread_ts : Option (List Char)
deriving DecidableEq

/-- The webhook's HTTP response (status code and body text). -/
structure WebhookResponse where
  status_code : Nat
  text : List Char
deriving DecidableEq

inductive LogLevel
  | info
  | error
deriving DecidableEq

structure LogEntry where
  level : LogLevel
  msg : List Char
deriving DecidableEq

/-- Lines 36-38: `payload = {"blocks": blocks}; if thread_ts: payload["thread_ts"] = thread_ts`.
Python truthiness: `None` and the empty string both leave the key unset. -/
def mkPayload (blocks : List Block) (thread_ts : Option (List Char)) : SlackPayload :=
  { blocks := blocks,
    thread_ts := match thread_ts with
      | some s => if s = [] then none else some s
      | none => none }

/-- Lines 35-42: `send_to_slack_blockkit`.  Given the webhook's response, it
yields the posted payload, an error log entry exactly when the status code
differs from 200, and its return value -- the literal `return None` on
line 42, which is what the caller captures as `thread_ts`. -/
def send_to_slack_blockkit (blocks : List Block) (thread_ts : Option (List Char))
    (response : WebhookResponse) : SlackPayload × Option LogEntry × Option (List Char) :=
  (mkPayload blocks thread_ts,
   if response.status_code ≠ 200 then
     some ⟨.error, str "Slack webhook error: " ++ natStr response.status_code
       ++ str " " ++ response.text⟩
   else none,
   none)

/-- The two `except` arms of lines 93-98: a `ConnectionError` or any other
exception raised by the search call. -/
inductive SearchError
  | connection (msg : List Char)
  | other (msg : List Char)
deriving DecidableEq

/-- The successful search result: `tweets.data` and `tweets.includes["users"]`.
`data = []` covers both an empty list and Python's `None` (line 100 tests
truthiness, under which the two are indistinguishable). -/
structure SearchResponse where
  data : List Tweet
  users : List TwitterUser
deriving DecidableEq

/-- Lines 81-82: `query = f"({' OR '.join(clauses)}) -is:retweet -is:reply lang:en"`
with each keyword of `PRIMARY_KEYWORDS + PRODUCT` quoted. -/
def buildQuery (primary product : List (List Char)) : List Char :=
  str "(" ++ List.intercalate (str " OR ")
      ((primary ++ product).map (fun kw => str "\"" ++ kw ++ str "\""))
    ++ str ") -is:retweet -is:reply lang:en"

/-- The loop at lines 120-145 over the ranked tweets.  `callIdx` numbers the
outbound webhook calls (the header was call 0); `responses` supplies the
environment's response to each call.  Yields the posted payloads in order
and the log entries in order. -/
def notifyLoop (cfg : KeywordConfig) (users : Nat → Option TwitterUser)
    (thread_ts : Option (List Char)) (responses : Nat → WebhookResponse) :
    List Tweet → Nat → List SlackPayload × List LogEntry
  | [], _ => ([], [])
  | t :: ts, callIdx =>
    match users t.author_id with
    | none => notifyLoop cfg users thread_ts responses ts callIdx
    | some u =>
      match filterDecision cfg users t with
      | .spamToken =>
        let rest := notifyLoop cfg users thread_ts responses ts callIdx
        (rest.1, ⟨.info, str "Tweet skipped due to spam token: " ++ tweet_url t u⟩ :: rest.2)
      | .ransomware =>
        let rest := notifyLoop cfg users thread_ts responses ts callIdx
        (rest.1, ⟨.info, str "Tweet skipped due to containing \x27ransomware\x27: "
          ++ tweet_url t u⟩ :: rest.2)
      | .lowFollowers n =>
        let rest := notifyLoop cfg users thread_ts responses ts callIdx
        (rest.1, ⟨.info, str "Tweet skipped due to low follower count ("
          ++ natStr n ++ str "): " ++ tweet_url t u⟩ :: rest.2)
      | .accepted =>
        let sent := send_to_slack_blockkit (format_tweet_blockkit t u) thread_ts
          (responses callIdx)
        let rest := notifyLoop cfg users thread_ts responses ts (callIdx + 1)
        (sent.1 :: rest.1,
         ⟨.info, str "Tweet matched: " ++ t.text⟩ :: (sent.2.1.toList ++ rest.2))
      | .noUser => notifyLoop cfg users thread_ts responses ts callIdx
      | .noKeywordMatch => notifyLoop cfg users thread_ts responses ts callIdx

/-- The payload the loop posts for one tweet, if any: present exactly when
the author resolves and the filter chain accepts. -/
def itemPayload (cfg : KeywordConfig) (users : Nat → Option TwitterUser)
    (thread_ts : Option (List Char)) (t : Tweet) : Option SlackPayload :=
  match users t.author_id with
  | none => none
  | some u =>
    match filterDecision cfg users t with
    | .accepted => some (mkPayload (format_tweet_blockkit t u) thread_ts)
    | _ => none

/-- Lines 79-147: one run of `search_and_notify`, given the outcome of the
search call (the query of lines 81-82 is sent to the external API and does
not otherwise affect the run) and the environment's webhook responses.
Yields the posted payloads in order and the log entries in order. -/
def search_and_notify (cfg : KeywordConfig) (timestamp : List Char)
    (result : Except SearchError SearchResponse)
    (responses : Nat → WebhookResponse) : List SlackPayload × List LogEntry :=
  match result with
  | .error (.connection m) =>
    ([], [⟨.error, str "Twitter API connection error: " ++ m⟩])
  | .error (.other m) =>
    ([], [⟨.error, str "Unexpected error during Twitter API call: " ++ m⟩])
  | .ok resp =>
    if resp.data = [] then
      ([], [⟨.info, str "No tweets found in the past 24 hours."⟩])
    else
      let header := send_to_slack_blockkit (header_block timestamp) none (responses 0)
      let items := notifyLoop cfg (userDictGet resp.users) header.2.2 responses
        (rankedTweets resp.data) 1
      (header.1 :: items.1, header.2.1.toList ++ items.2)

/- ### Basic shape lemmas for the filter chain -/

theorem filterDecision_spam {cfg : KeywordConfig} {users : Nat → Option TwitterUser}
    {t : Tweet} {u : TwitterUser} (hu : users t.author_id = some u)
    (hs : spamHit cfg t = true) :
    filterDecision cfg users t = .spamToken := by
  unfold filterDecision
  rw [hu, hs]
  simp

theorem filterDecision_ransomware {cfg : KeywordConfig} {users : Nat → Option TwitterUser}
    {t : Tweet} {u : TwitterUser} (hu : users t.author_id = some u)
    (hs : spamHit cfg t = false) (hr : ransomwareHit t = true) :
    filterDecision cfg users t = .ransomware := by
  unfold filterDecision
  rw [hu, hs, hr]
  simp

theorem filterDecision_followers {cfg : KeywordConfig} {users : Nat → Option TwitterUser}
    {t : Tweet} {u : TwitterUser} (hu : users t.author_id = some u)
    (hs : spamHit cfg t = false) (hr : ransomwareHit t = false)
    (hf : followersOf u < 20) :
    filterDecision cfg users t = .lowFollowers (followersOf u) := by
  unfold filterDecision
  rw [hu, hs, hr]
  simp [hf]

theorem filterDecision_accepted_iff {cfg : KeywordConfig} {users : Nat → Option TwitterUser}
    {t : Tweet} :
    filterDecision cfg users t = .accepted ↔
      ∃ u, users t.author_id = some u ∧ spamHit cfg t = false ∧
        ransomwareHit t = false ∧ 20 ≤ followersOf u ∧ keywordHit cfg t = true := by
  unfold filterDecision
  cases hu : users t.author_id with
  | none => simp
  | some u =>
    simp only [Option.some.injEq]
    constructor
    · intro h
      refine ⟨u, rfl, ?_⟩
      by_cases hs : spamHit cfg t <;> simp [hs] at h ⊢
      by_cases hr : ransomwareHit t <;> simp [hr] at h ⊢
      by_cases hf : followersOf u < 20 <;> simp [hf] at h
      by_cases hk : keywordHit cfg t <;> simp [hk] at h ⊢
      omega
    · rintro ⟨u', hu', hs, hr, hf, hk⟩
      cases hu'
      have hf2 : ¬ followersOf u < 20 := by omega
      simp [hs, hr, hf2, hk]

/-- C6 -- Any tweet whose (effective) text contains the literal substring
"ransomware" in any casing is rejected; moreover, with an empty service/spam
list (and in general whenever no spam token fires) the rejection comes from
the dedicated "ransomware" rule, distinct from the configurable spam check. -/
theorem C6_ransomware_always_rejected :
    (∀ (cfg : KeywordConfig) (users : Nat → Option TwitterUser) (t : Tweet),
      ransomwareHit t = true → filterDecision cfg users t ≠ .accepted)
    ∧
    (∀ (cfg : KeywordConfig) (users : Nat → Option TwitterUser) (t : Tweet)
      (u : TwitterUser), users t.author_id = some u → cfg.service = [] →
      ransomwareHit t = true → filterDecision cfg users t = .ransomware) := by
  constructor
  · intro cfg users t hr hacc
    rcases filterDecision_accepted_iff.mp hacc with ⟨u, _, _, hr', _, _⟩
    rw [hr] at hr'
    exact Bool.true_eq_false.mp hr'
  · intro cfg users t u hu hsvc hr
    have hs : spamHit cfg t = false := by
      unfold spamHit
      rw [hsvc]
      rfl
    exact filterDecision_ransomware hu hs hr

/-- C6 witness: a tweet whose text is "RANSOMWARE attack" (upper case) is
rejected by the dedicated rule even though the service list is empty. -/
theorem C6_ransomware_always_rejected_witness :
    filterDecision ⟨[str "breach"], [], []⟩
      (fun _ => some ⟨7, str "alice", some 50⟩)
      ⟨1, 7, str "RANSOMWARE attack", none, ⟨none, none, none, none⟩⟩ = .ransomware :=
  C6_ransomware_always_rejected.2
    ⟨[str "breach"], [], []⟩
    (fun _ => some ⟨7, str "alice", some 50⟩)
    ⟨1, 7, str "RANSOMWARE attack", none, ⟨none, none, none, none⟩⟩
    ⟨7, str "alice", some 50⟩ rfl rfl (by decide)

/-- C7 -- Asymmetric case sensitivity: a service/spam keyword rejects by
case-insensitive substring match (both sides lowered), while acceptance
requires a case-sensitive primary/product keyword match on the raw text. -/
theorem C7_case_sensitivity_asymmetry :
    (∀ (cfg : KeywordConfig) (users : Nat → Option TwitterUser) (t : Tweet)
      (u : TwitterUser) (token : List Char), users t.author_id = some u →
      token ∈ cfg.service → pyIn (lower token) (lower (tweetText t)) = true →
      filterDecision cfg users t = .spamToken)
    ∧
    (∀ (cfg : KeywordConfig) (users : Nat → Option TwitterUser) (t : Tweet),
      filterDecision cfg users t = .accepted →
      ∃ kw ∈ cfg.primary ++ cfg.product, pyIn kw (tweetText t) = true) := by
  constructor
  · intro cfg users t u token hu htok hmatch
    have hs : spamHit cfg t = true := by
      unfold spamHit
      exact List.any_eq_true.mpr ⟨token, htok, hmatch⟩
    exact filterDecision_spam hu hs
  · intro cfg users t hacc
    rcases filterDecision_accepted_iff.mp hacc with ⟨u, _, _, _, _, hk⟩
    exact List.any_eq_true.mp hk

/-- C7 witness: the configured service keyword "Malware" rejects the text
"this MALWARE campaign" (case-insensitively); and an accepted tweet
("data breach found") yields a case-sensitively matching keyword. -/
theorem C7_case_sensitivity_asymmetry_witness :
    filterDecision ⟨[str "breach"], [], [str "Malware"]⟩
      (fun _ => some ⟨7, str "alice", some 50⟩)
      ⟨1, 7, str "this MALWARE campaign", none, ⟨none, none, none, none⟩⟩ = .spamToken
    ∧
    ∃ kw ∈ ([str "breach"] : List (List Char)) ++ [],
      pyIn kw (tweetText ⟨2, 7, str "data breach found", none, ⟨none, none, none, none⟩⟩) = true :=
  ⟨C7_case_sensitivity_asymmetry.1
      ⟨[str "breach"], [], [str "Malware"]⟩
      (fun _ => some ⟨7, str "alice", some 50⟩)
      ⟨1, 7, str "this MALWARE campaign", none, ⟨none, none, none, none⟩⟩
      ⟨7, str "alice", some 50⟩ (str "Malware") rfl (by decide) (by decide),
   C7_case_sensitivity_asymmetry.2
      ⟨[str "breach"], [], []⟩
      (fun _ => some ⟨7, str "alice", some 50⟩)
      ⟨2, 7, str "data breach found", none, ⟨none, none, none, none⟩⟩
      (by decide)⟩

/-- C8 -- The follower threshold is inclusive at 20: once the spam and
"ransomware" checks have passed, a resolved author with fewer than 20
followers is rejected by the follower rule, and one with at least 20
followers passes it (the decision is then accepted or no-keyword-match). -/
theorem C8_follower_threshold_inclusive_at_20 :
    ∀ (cfg : KeywordConfig) (users : Nat → Option TwitterUser) (t : Tweet)
      (u : TwitterUser), users t.author_id = some u →
      spamHit cfg t = false → ransomwareHit t = false →
      ((followersOf u < 20 → filterDecision cfg users t = .lowFollowers (followersOf u))
        ∧ (20 ≤ followersOf u →
            filterDecision cfg users t ≠ .lowFollowers (followersOf u) ∧
            (filterDecision cfg users t = .accepted ∨
             filterDecision cfg users t = .noKeywordMatch))) := by
  intro cfg users t u hu hs hr
  constructor
  · intro hf
    exact filterDecision_followers hu hs hr hf
  · intro hf
    have hf' : ¬ followersOf u < 20 := by omega
    unfold filterDecision
    rw [hu, hs, hr]
    by_cases hk : keywordHit cfg t <;> simp [hf', hk]

/-- C8 witness: with text "data breach" and primary keyword "breach", an
author with exactly 19 followers is rejected and one with exactly 20 is
accepted. -/
theorem C8_follower_threshold_inclusive_at_20_witness :
    filterDecision ⟨[str "breach"], [], []⟩
      (fun _ => some ⟨7, str "alice", some 19⟩)
      ⟨1, 7, str "data breach", none, ⟨none, none, none, none⟩⟩ = .lowFollowers 19
    ∧
    filterDecision ⟨[str "breach"], [], []⟩
      (fun _ => some ⟨7, str "alice", some 20⟩)
      ⟨1, 7, str "data breach", none, ⟨none, none, none, none⟩⟩ = .accepted :=
  ⟨(C8_follower_threshold_inclusive_at_20
      ⟨[str "breach"], [], []⟩
      (fun _ => some ⟨7, str "alice", some 19⟩)
      ⟨1, 7, str "data breach", none, ⟨none, none, none, none⟩⟩
      ⟨7, str "alice", some 19⟩ rfl (by decide) (by decide)).1 (by decide),
   by
    rcases (C8_follower_threshold_inclusive_at_20
      ⟨[str "breach"], [], []⟩
      (fun _ => some ⟨7, str "alice", some 20⟩)
      ⟨1, 7, str "data breach", none, ⟨none, none, none, none⟩⟩
      ⟨7, str "alice", some 20⟩ rfl (by decide) (by decide)).2 (by decide) with ⟨_, h | h⟩
    · exact h
    · exact absurd h (by decide)⟩

/-- C10 -- A resolved author whose metrics lack `followers_count` is treated
as having 0 followers and (once the spam and "ransomware" checks pass) is
rejected by the below-20 follower rule. -/
theorem C10_missing_followers_count_defaults_to_zero :
    ∀ (cfg : KeywordConfig) (users : Nat → Option TwitterUser) (t : Tweet)
      (u : TwitterUser), users t.author_id = some u →
      u.followers_count = none →
      spamHit cfg t = false → ransomwareHit t = false →
      followersOf u = 0 ∧ filterDecision cfg users t = .lowFollowers 0 := by
  intro cfg users t u hu hnone hs hr
  have h0 : followersOf u = 0 := by
    unfold followersOf
    rw [hnone]
    rfl
  refine ⟨h0, ?_⟩
  have := filterDecision_followers hu hs hr (by omega : followersOf u < 20)
  rwa [h0] at this

/-- C10 witness: an author record with no `followers_count` key is rejected
as having 0 followers. -/
theorem C10_missing_followers_count_defaults_to_zero_witness :
    followersOf ⟨7, str "alice", none⟩ = 0 ∧
    filterDecision ⟨[str "breach"], [], []⟩
      (fun _ => some ⟨7, str "alice", none⟩)
      ⟨1, 7, str "data breach", none, ⟨none, none, none, none⟩⟩ = .lowFollowers 0 :=
  C10_missing_followers_count_defaults_to_zero
    ⟨[str "breach"], [], []⟩
    (fun _ => some ⟨7, str "alice", none⟩)
    ⟨1, 7, str "data breach", none, ⟨none, none, none, none⟩⟩
    ⟨7, str "alice", none⟩ rfl rfl (by decide) (by decide)

/- ### Run-shape lemmas -/

theorem notifyLoop_fst (cfg : KeywordConfig) (users : Nat → Option TwitterUser)
    (thread_ts : Option (List Char)) (responses : Nat → WebhookResponse) :
    ∀ (ts : List Tweet) (callIdx : Nat),
      (notifyLoop cfg users thread_ts responses ts callIdx).1
        = ts.filterMap (itemPayload cfg users thread_ts) := by
  intro ts
  induction ts with
  | nil => intro i; rfl
  | cons t ts ih =>
    intro i
    rw [List.filterMap_cons]
    cases hu : users t.author_id with
    | none => simp [notifyLoop, itemPayload, hu, ih]
    | some u =>
      cases hd : filterDecision cfg users t <;>
        simp [notifyLoop, itemPayload, hu, hd, ih, send_to_slack_blockkit]

theorem search_and_notify_fst (cfg : KeywordConfig) (timestamp : List Char)
    (resp : SearchResponse) (responses : Nat → WebhookResponse) (h : resp.data ≠ []) :
    (search_and_notify cfg timestamp (.ok resp) responses).1
      = mkPayload (header_block timestamp) none
        :: (rankedTweets resp.data).filterMap
            (itemPayload cfg (userDictGet resp.users) none) := by
  simp [search_and_notify, h, send_to_slack_blockkit, notifyLoop_fst]

theorem itemPayload_thread_ts {cfg : KeywordConfig} {users : Nat → Option TwitterUser}
    {t : Tweet} {p : SlackPayload} (h : itemPayload cfg users none t = some p) :
    p.thread_ts = none := by
  unfold itemPayload at h
  cases hu : users t.author_id with
  | none => rw [hu] at h; exact Option.noConfusion h
  | some u =>
    rw [hu] at h
    cases hd : filterDecision cfg users t <;> rw [hd] at h
    case accepted =>
      cases h
      rfl
    all_goals exact Option.noConfusion h

/- ### Sort lemmas: the pipeline sort is descending and stable -/

theorem orderedInsert_filter_impressions (a : Tweet) (k : Nat) :
    ∀ l : List Tweet,
      (l.orderedInsert impGE a).filter (fun t => impressions t == k)
        = if impressions a == k
          then a :: l.filter (fun t => impressions t == k)
          else l.filter (fun t => impressions t == k) := by
  intro l
  induction l with
  | nil =>
    by_cases hak : impressions a == k <;> simp [List.orderedInsert, hak]
  | cons b l ih =>
    simp only [List.orderedInsert]
    by_cases hab : impGE a b
    · rw [if_pos hab]
      by_cases hak : impressions a == k <;>
        by_cases hbk : impressions b == k <;>
          simp [List.filter_cons, hak, hbk]
    · rw [if_neg hab]
      by_cases hak : impressions a == k
      · have hab2 : ¬ impressions b ≤ impressions a := hab
        have hbk : (impressions b == k) = false := by
          by_contra hbkc
          have hb : impressions b = k := by
            simpa using (Bool.not_eq_false _).mp hbkc
          have ha : impressions a = k := by simpa using hak
          omega
        simp [List.filter_cons, hak, hbk, ih]
      · by_cases hbk : impressions b == k <;>
          simp [List.filter_cons, ih, hak, hbk]

theorem sortByImpressionsDesc_filter (l : List Tweet) (k : Nat) :
    (sortByImpressionsDesc l).filter (fun t => impressions t == k)
      = l.filter (fun t => impressions t == k) := by
  induction l with
  | nil => rfl
  | cons a l ih =>
    show ((List.insertionSort impGE l).orderedInsert impGE a).filter _ = _
    rw [orderedInsert_filter_impressions]
    simp only [sortByImpressionsDesc] at ih
    by_cases hak : impressions a == k <;>
      simp [List.filter_cons, hak, ih]

/-- Claim C5: the pipeline sorts fetched posts by impression count descending
(missing metric read as 0), preserves the original relative order of equal
counts (counts [5, 20, 3, 20] come out as both 20s in original order, then
5, then 3), caps to the first 100, and the run emits accepted posts in
exactly that order with no re-sort after filtering. -/
theorem C5_rank_sort_stable_capped :
    (sortByImpressionsDesc
        [⟨1, 7, str "a", none, ⟨none, none, none, some 5⟩⟩,
         ⟨2, 7, str "b", none, ⟨none, none, none, some 20⟩⟩,
         ⟨3, 7, str "c", none, ⟨none, none, none, some 3⟩⟩,
         ⟨4, 7, str "d", none, ⟨none, none, none, some 20⟩⟩]
      = [⟨2, 7, str "b", none, ⟨none, none, none, some 20⟩⟩,
         ⟨4, 7, str "d", none, ⟨none, none, none, some 20⟩⟩,
         ⟨1, 7, str "a", none, ⟨none, none, none, some 5⟩⟩,
         ⟨3, 7, str "c", none, ⟨none, none, none, some 3⟩⟩])
    ∧ (∀ l : List Tweet, List.Sorted impGE (sortByImpressionsDesc l))
    ∧ (∀ (l : List Tweet) (k : Nat),
        (sortByImpressionsDesc l).filter (fun t => impressions t == k)
          = l.filter (fun t => impressions t == k))
    ∧ (∀ l : List Tweet, (sortByImpressionsDesc l).Perm l)
    ∧ (∀ (cfg : KeywordConfig) (timestamp : List Char) (resp : SearchResponse)
        (responses : Nat → WebhookResponse), resp.data ≠ [] →
        (search_and_notify cfg timestamp (.ok resp) responses).1
          = mkPayload (header_block timestamp) none
            :: ((sortByImpressionsDesc resp.data).take 100).filterMap
                (itemPayload cfg (userDictGet resp.users) none)) := by
  refine ⟨by decide, ?_, sortByImpressionsDesc_filter, ?_, ?_⟩
  · intro l
    exact List.sorted_insertionSort impGE l
  · intro l
    exact List.perm_insertionSort impGE l
  · intro cfg timestamp resp responses h
    exact search_and_notify_fst cfg timestamp resp responses h

/-- Witness for C5: a run over one fetched post emits the header followed by
the filtered projection of the capped sorted list. -/
theorem C5_rank_sort_stable_capped_witness :
    (search_and_notify ⟨[str "breach"], [], []⟩ (str "t")
        (.ok ⟨[⟨1, 7, str "data breach", none, ⟨none, none, none, some 5⟩⟩],
              [⟨7, str "alice", some 50⟩]⟩)
        (fun _ => ⟨200, str "ok"⟩)).1
      = mkPayload (header_block (str "t")) none
        :: ((sortByImpressionsDesc
              [⟨1, 7, str "data breach", none, ⟨none, none, none, some 5⟩⟩]).take 100).filterMap
            (itemPayload ⟨[str "breach"], [], []⟩
              (userDictGet [⟨7, str "alice", some 50⟩]) none) :=
  C5_rank_sort_stable_capped.2.2.2.2 ⟨[str "breach"], [], []⟩ (str "t")
    ⟨[⟨1, 7, str "data breach", none, ⟨none, none, none, some 5⟩⟩],
     [⟨7, str "alice", some 50⟩]⟩
    (fun _ => ⟨200, str "ok"⟩) (by decide)

/-- Claim C1 (amended): `send_to_slack_blockkit` returns `None` (line 42), so
the `thread_ts` captured from the header post is `None` and no outbound
payload of any run -- the header's or an item's -- carries a `thread_ts`
field: items are posted as standalone messages, not threaded replies. -/
theorem C1_no_payload_carries_thread_ts :
    ∀ (cfg : KeywordConfig) (timestamp : List Char)
      (result : Except SearchError SearchResponse)
      (responses : Nat → WebhookResponse) (p : SlackPayload),
      p ∈ (search_and_notify cfg timestamp result responses).1 →
      p.thread_ts = none := by
  intro cfg timestamp result responses p hp
  match result with
  | .error (.connection m) => simp [search_and_notify] at hp
  | .error (.other m) => simp [search_and_notify] at hp
  | .ok resp =>
    by_cases hd : resp.data = []
    · simp [search_and_notify, hd] at hp
    · rw [search_and_notify_fst cfg timestamp resp responses hd] at hp
      rcases List.mem_cons.mp hp with rfl | hmem
      · rfl
      · rcases List.mem_filterMap.mp hmem with ⟨t, _, ht⟩
        exact itemPayload_thread_ts ht

/-- Witness for C1 (amended): the header payload of a concrete run is among
the run's outbound payloads and carries no `thread_ts`. -/
theorem C1_no_payload_carries_thread_ts_witness :
    mkPayload (header_block (str "t")) none
        ∈ (search_and_notify ⟨[str "breach"], [], []⟩ (str "t")
            (.ok ⟨[⟨1, 7, str "data breach", none, ⟨none, none, none, none⟩⟩],
                  [⟨7, str "alice", some 50⟩]⟩)
            (fun _ => ⟨200, str "ok"⟩)).1
    ∧ (mkPayload (header_block (str "t")) none).thread_ts = none :=
  ⟨by decide,
   C1_no_payload_carries_thread_ts ⟨[str "breach"], [], []⟩ (str "t")
     (.ok ⟨[⟨1, 7, str "data breach", none, ⟨none, none, none, none⟩⟩],
           [⟨7, str "alice", some 50⟩]⟩)
     (fun _ => ⟨200, str "ok"⟩)
     (mkPayload (header_block (str "t")) none)
     (by decide)⟩

/-- Claim C1 counterexample: in the end-to-end scenario with exactly one
accepted post (text matching the primary keyword, author with 50 followers,
webhook answering 200), the run issues exactly two outbound payloads and
the second -- the item -- references no thread identifier at all: its
`thread_ts` field is absent, as is the header's. -/
theorem C1_counterexample :
    ((search_and_notify ⟨[str "breach"], [], []⟩ (str "2026-10-12 00:00 UTC")
        (.ok ⟨[⟨1, 7, str "data breach found", none, ⟨none, none, none, some 10⟩⟩],
              [⟨7, str "alice", some 50⟩]⟩)
        (fun _ => ⟨200, str "ok"⟩)).1).length = 2
    ∧ ((search_and_notify ⟨[str "breach"], [], []⟩ (str "2026-10-12 00:00 UTC")
        (.ok ⟨[⟨1, 7, str "data breach found", none, ⟨none, none, none, some 10⟩⟩],
              [⟨7, str "alice", some 50⟩]⟩)
        (fun _ => ⟨200, str "ok"⟩)).1).map SlackPayload.thread_ts = [none, none] :=
  ⟨by decide, by decide⟩

/-- Claim C2 (amended): there is no fail-fast guard for empty keyword lists:
with both lists empty the query builder yields the degenerate query
`"() -is:retweet -is:reply lang:en"` (empty OR-clause), the run still
consumes a search result, and a run whose search returned data still posts
the header message (and no item, since no keyword can match). -/
theorem C2_empty_keyword_lists_no_guard :
    buildQuery [] [] = str "() -is:retweet -is:reply lang:en"
    ∧ (∀ (timestamp : List Char) (data : List Tweet) (users : List TwitterUser)
        (responses : Nat → WebhookResponse), data ≠ [] →
        (search_and_notify ⟨[], [], []⟩ timestamp (.ok ⟨data, users⟩) responses).1
          = [mkPayload (header_block timestamp) none]) := by
  refine ⟨by decide, ?_⟩
  intro timestamp data users responses h
  rw [search_and_notify_fst _ _ _ _ h]
  have hnone : ∀ t : Tweet,
      itemPayload ⟨[], [], []⟩ (userDictGet users) none t = none := by
    intro t
    unfold itemPayload
    cases hu : userDictGet users t.author_id with
    | none => rfl
    | some u =>
      cases hd : filterDecision ⟨[], [], []⟩ (userDictGet users) t
      case accepted =>
        rcases filterDecision_accepted_iff.mp hd with ⟨u2, _, _, _, _, hk⟩
        simp [keywordHit] at hk
      all_goals rfl
  have hnil : ∀ l : List Tweet,
      l.filterMap (itemPayload ⟨[], [], []⟩ (userDictGet users) none) = [] := by
    intro l
    induction l with
    | nil => rfl
    | cons t l ih => simp [List.filterMap_cons, hnone, ih]
  rw [hnil]

/-- Witness for C2 (amended): a concrete run with empty keyword lists and a
non-empty search result posts exactly the header. -/
theorem C2_empty_keyword_lists_no_guard_witness :
    (search_and_notify ⟨[], [], []⟩ (str "ts")
        (.ok ⟨[⟨2, 8, str "world", none, ⟨none, none, none, some 4⟩⟩],
              [⟨8, str "bob", some 30⟩]⟩)
        (fun _ => ⟨200, str "ok"⟩)).1
      = [mkPayload (header_block (str "ts")) none] :=
  C2_empty_keyword_lists_no_guard.2 (str "ts")
    [⟨2, 8, str "world", none, ⟨none, none, none, some 4⟩⟩]
    [⟨8, str "bob", some 30⟩]
    (fun _ => ⟨200, str "ok"⟩) (by decide)

/-- Claim C2 counterexample: with both keyword lists empty the builder
produces the degenerate empty-OR query instead of failing, and a run whose
search returned one tweet still posts the header message -- no
configuration error precedes the search. -/
theorem C2_counterexample :
    buildQuery [] [] = str "() -is:retweet -is:reply lang:en"
    ∧ (search_and_notify ⟨[], [], []⟩ (str "t")
        (.ok ⟨[⟨1, 7, str "hello", none, ⟨none, none, none, none⟩⟩],
              [⟨7, str "alice", some 50⟩]⟩)
        (fun _ => ⟨200, str "ok"⟩)).1
      = [mkPayload (header_block (str "t")) none] :=
  ⟨by decide, by decide⟩

/-- Claim C3 (amended): the notifier logs an error, containing the status
code and the response body, exactly when the webhook status differs from
200 -- so any non-200 status is logged, including other 2xx successes --
and the sequence of posted payloads does not depend on the webhook
responses at all: a failed post aborts nothing and nothing is retried. -/
theorem C3_error_log_iff_not_200_and_run_continues :
    (∀ (blocks : List Block) (thread_ts : Option (List Char)) (r : WebhookResponse),
      (send_to_slack_blockkit blocks thread_ts r).2.1 ≠ none ↔ r.status_code ≠ 200)
    ∧ (∀ (blocks : List Block) (thread_ts : Option (List Char)) (r : WebhookResponse),
        r.status_code ≠ 200 →
        (send_to_slack_blockkit blocks thread_ts r).2.1
          = some ⟨.error, str "Slack webhook error: " ++ natStr r.status_code
              ++ str " " ++ r.text⟩)
    ∧ (∀ (cfg : KeywordConfig) (timestamp : List Char)
        (result : Except SearchError SearchResponse)
        (f g : Nat → WebhookResponse),
        (search_and_notify cfg timestamp result f).1
          = (search_and_notify cfg timestamp result g).1) := by
  refine ⟨?_, ?_, ?_⟩
  · intro blocks th r
    by_cases h : r.status_code = 200 <;> simp [send_to_slack_blockkit, h]
  · intro blocks th r h
    simp [send_to_slack_blockkit, h]
  · intro cfg timestamp result f g
    match result with
    | .error (.connection m) => rfl
    | .error (.other m) => rfl
    | .ok resp =>
      by_cases hd : resp.data = []
      · simp [search_and_notify, hd]
      · rw [search_and_notify_fst _ _ _ _ hd, search_and_notify_fst _ _ _ _ hd]

/-- Witness for C3 (amended): a 500 response is logged with its status code
and body. -/
theorem C3_error_log_iff_not_200_and_run_continues_witness :
    (send_to_slack_blockkit [Block.divider] none ⟨500, str "oops"⟩).2.1
      = some ⟨.error, str "Slack webhook error: " ++ natStr 500
          ++ str " " ++ str "oops"⟩ :=
  C3_error_log_iff_not_200_and_run_continues.2.1 [Block.divider] none
    ⟨500, str "oops"⟩ (by decide)

/-- Claim C3 counterexample: a 204 No Content response is a 2xx success, yet
the notifier logs it as an error -- the code tests `status != 200`, not
"not a 2xx success". -/
theorem C3_counterexample :
    200 ≤ 204 ∧ 204 < 300
    ∧ (send_to_slack_blockkit [Block.divider] none ⟨204, str "No Content"⟩).2.1
      = some ⟨.error, str "Slack webhook error: 204 No Content"⟩ :=
  ⟨by decide, by decide, by decide⟩

/-- Claim C4: if the search call raises (a connection failure or any other
exception) the run makes zero outbound calls and writes a single error log
line; if the search succeeds with zero posts the run makes zero outbound
calls and writes the single informational log line. -/
theorem C4_no_notifications_on_error_or_empty :
    (∀ (cfg : KeywordConfig) (timestamp m : List Char)
      (responses : Nat → WebhookResponse),
      search_and_notify cfg timestamp (.error (.connection m)) responses
        = ([], [⟨.error, str "Twitter API connection error: " ++ m⟩])
      ∧ search_and_notify cfg timestamp (.error (.other m)) responses
        = ([], [⟨.error, str "Unexpected error during Twitter API call: " ++ m⟩]))
    ∧ (∀ (cfg : KeywordConfig) (timestamp : List Char) (users : List TwitterUser)
        (responses : Nat → WebhookResponse),
        search_and_notify cfg timestamp (.ok ⟨[], users⟩) responses
          = ([], [⟨.info, str "No tweets found in the past 24 hours."⟩])) := by
  refine ⟨fun cfg timestamp m responses => ⟨rfl, rfl⟩,
    fun cfg timestamp users responses => ?_⟩
  simp [search_and_notify]

/- ### URL-stripping lemmas -/

theorem stripLinksFuel_nil (f : Nat) : stripLinksFuel f [] = [] := by
  cases f <;> rfl

theorem stripLinksFuel_congr (f : Nat) :
    ∀ (g : Nat) (cs : List Char), cs.length ≤ f → cs.length ≤ g →
      stripLinksFuel f cs = stripLinksFuel g cs := by
  induction f with
  | zero =>
    intro g cs h1 _
    rw [List.length_eq_zero.mp (Nat.le_zero.mp h1), stripLinksFuel_nil,
      stripLinksFuel_nil]
  | succ f ih =>
    intro g cs h1 h2
    cases cs with
    | nil => rw [stripLinksFuel_nil, stripLinksFuel_nil]
    | cons c cs =>
      cases g with
      | zero => simp at h2
      | succ g =>
        have hl1 : cs.length ≤ f := by simp at h1; omega
        have hl2 : cs.length ≤ g := by simp at h2; omega
        simp only [stripLinksFuel]
        by_cases hm : urlMatchLen (c :: cs) = 0
        · rw [if_pos hm, if_pos hm, ih g cs hl1 hl2]
        · rw [if_neg hm, if_neg hm]
          have hd : ((c :: cs).drop (urlMatchLen (c :: cs))).length ≤ cs.length := by
            rw [List.length_drop]
            simp only [List.length_cons]
            omega
          exact ih g _ (le_trans hd hl1) (le_trans hd hl2)

theorem strip_links_eq_fuel {f : Nat} {cs : List Char} (h : cs.length ≤ f) :
    stripLinksFuel f cs = strip_links cs :=
  stripLinksFuel_congr f cs.length cs h le_rfl

theorem strip_links_cons_nomatch {c : Char} {cs : List Char}
    (h : urlMatchLen (c :: cs) = 0) :
    strip_links (c :: cs) = c :: strip_links cs := by
  show stripLinksFuel (c :: cs).length (c :: cs) = _
  simp only [List.length_cons, stripLinksFuel, if_pos h]
  rw [strip_links_eq_fuel le_rfl]

theorem strip_links_match {cs : List Char} (hne : cs ≠ [])
    (h : urlMatchLen cs ≠ 0) :
    strip_links cs = strip_links (cs.drop (urlMatchLen cs)) := by
  cases cs with
  | nil => exact absurd rfl hne
  | cons c cs =>
    show stripLinksFuel (c :: cs).length (c :: cs) = _
    simp only [List.length_cons, stripLinksFuel, if_neg h]
    exact strip_links_eq_fuel (by rw [List.length_drop]; simp; omega)

theorem schemeLen_cons_ne_h {c : Char} (cs : List Char) (hc : c ≠ 'h') :
    schemeLen (c :: cs) = 0 := by
  have hbeq : ('h' == c) = false := by
    simp only [beq_eq_false_iff_ne]
    exact fun he => hc he.symm
  have h1 : (str "https://").isPrefixOf (c :: cs) = false := by
    show (('h' == c) && ((str "ttps://").isPrefixOf cs)) = false
    simp [hbeq]
  have h2 : (str "http://").isPrefixOf (c :: cs) = false := by
    show (('h' == c) && ((str "ttp://").isPrefixOf cs)) = false
    simp [hbeq]
  simp [schemeLen, h1, h2]

theorem urlMatchLen_cons_ne_h {c : Char} (cs : List Char) (hc : c ≠ 'h') :
    urlMatchLen (c :: cs) = 0 := by
  simp [urlMatchLen, schemeLen_cons_ne_h cs hc]

theorem strip_links_append_no_h (p cs : List Char) (hp : ∀ c ∈ p, c ≠ 'h') :
    strip_links (p ++ cs) = p ++ strip_links cs := by
  induction p with
  | nil => rfl
  | cons c p ih =>
    have h0 : urlMatchLen (c :: (p ++ cs)) = 0 :=
      urlMatchLen_cons_ne_h (p ++ cs) (hp c (List.mem_cons_self c p))
    rw [List.cons_append, strip_links_cons_nomatch h0,
      ih (fun d hd => hp d (List.mem_cons_of_mem c hd)), List.cons_append]

theorem isPrefixOf_self_append (l r : List Char) : l.isPrefixOf (l ++ r) = true := by
  induction l with
  | nil => simp [List.isPrefixOf]
  | cons c l ih => simp [List.isPrefixOf, ih]

theorem https_not_prefixOf_http (x : List Char) :
    (str "https://").isPrefixOf (str "http://" ++ x) = false := by
  show (['h', 't', 't', 'p', 's', ':', '/', '/'] : List Char).isPrefixOf
    ('h' :: 't' :: 't' :: 'p' :: ':' :: '/' :: '/' :: x) = false
  have h5 : (('s' : Char) == ':') = false := by decide
  simp [List.isPrefixOf, h5]

theorem takeWhile_append_of_all {p : Char → Bool} {w s : List Char}
    (hw : ∀ c ∈ w, p c = true)
    (hs : s = [] ∨ ∃ c s2, s = c :: s2 ∧ p c = false) :
    (w ++ s).takeWhile p = w := by
  induction w with
  | nil =>
    rcases hs with rfl | ⟨c, s2, rfl, hc⟩
    · rfl
    · simp [List.takeWhile_cons, hc]
  | cons c w ih =>
    simp only [List.cons_append, List.takeWhile_cons,
      hw c (List.mem_cons_self c w), if_true]
    rw [ih (fun d hd => hw d (List.mem_cons_of_mem c hd))]

theorem strip_links_removes_url {sch w s : List Char}
    (hsch : schemeLen (sch ++ (w ++ s)) = sch.length) (h0 : sch ≠ [])
    (hw : w ≠ []) (hwns : ∀ c ∈ w, c.isWhitespace = false)
    (hs : s = [] ∨ ∃ c s2, s = c :: s2 ∧ c.isWhitespace = true) :
    strip_links (sch ++ (w ++ s)) = strip_links s := by
  have htw : ((w ++ s).takeWhile (fun c => !c.isWhitespace)) = w := by
    apply takeWhile_append_of_all
    · intro c hc
      simp [hwns c hc]
    · rcases hs with rfl | ⟨c, s2, rfl, hc⟩
      · exact Or.inl rfl
      · exact Or.inr ⟨c, s2, rfl, by simp [hc]⟩
  have hlen0 : sch.length ≠ 0 := by
    cases sch
    · exact absurd rfl h0
    · simp
  have hwlen : w.length ≠ 0 := by
    cases w
    · exact absurd rfl hw
    · simp
  have hm : urlMatchLen (sch ++ (w ++ s)) = sch.length + w.length := by
    unfold urlMatchLen
    rw [hsch, if_neg hlen0]
    simp only [List.drop_left, htw]
    rw [if_neg hwlen]
  have hne : sch ++ (w ++ s) ≠ [] := by
    cases sch
    · exact absurd rfl h0
    · simp
  have hdrop : (sch ++ (w ++ s)).drop (sch.length + w.length) = s := by
    rw [← List.append_assoc, ← List.length_append, List.drop_left]
  rw [strip_links_match hne (by rw [hm]; omega), hm, hdrop]

/-- Claim C9: the formatter's cleaning removes every substring matching an
http or https scheme, "://", and a maximal non-empty run of non-whitespace
characters, then trims surrounding whitespace: the spec's example input
yields "Check this out  now" with the URL fully removed; a prefix free of
the scheme's initial letter passes through unchanged, and a
scheme-plus-run segment bounded by whitespace (or the end of text) is
deleted whole. -/
theorem C9_strip_links_and_trim :
    cleanTextOf ⟨1, 7, str "Check this out https://example.com/x?y=1 now",
        none, ⟨none, none, none, none⟩⟩ = str "Check this out  now"
    ∧ pyStrip (strip_links (str "  hello http://x.com  ")) = str "hello"
    ∧ (∀ p cs : List Char, (∀ c ∈ p, c ≠ 'h') →
        strip_links (p ++ cs) = p ++ strip_links cs)
    ∧ (∀ sch w s : List Char,
        (sch = str "http://" ∨ sch = str "https://") → w ≠ [] →
        (∀ c ∈ w, c.isWhitespace = false) →
        (s = [] ∨ ∃ c s2, s = c :: s2 ∧ c.isWhitespace = true) →
        strip_links (sch ++ (w ++ s)) = strip_links s) := by
  refine ⟨by decide, by decide, strip_links_append_no_h, ?_⟩
  intro sch w s hsch hw hwns hs
  refine strip_links_removes_url ?_ ?_ hw hwns hs
  · rcases hsch with rfl | rfl
    · rw [show ((str "http://").length) = 7 from rfl]
      simp [schemeLen, https_not_prefixOf_http, isPrefixOf_self_append]
    · rw [show ((str "https://").length) = 8 from rfl]
      simp [schemeLen, isPrefixOf_self_append]
  · rcases hsch with rfl | rfl <;> decide

/-- Witness for C9: the pass-through and whole-segment-removal conjuncts at
concrete inputs. -/
theorem C9_strip_links_and_trim_witness :
    strip_links (str "go " ++ str "now") = str "go " ++ strip_links (str "now")
    ∧ strip_links (str "https://" ++ (str "x.co" ++ str " end"))
        = strip_links (str " end") :=
  ⟨C9_strip_links_and_trim.2.2.1 (str "go ") (str "now") (by decide),
   C9_strip_links_and_trim.2.2.2 (str "https://") (str "x.co") (str " end")
     (Or.inr rfl) (by decide) (by decide)
     (Or.inr ⟨' ', str "end", rfl, by decide⟩)⟩
